import Mathlib

/-!
Shallow embedding of `src/main.py` (OverlayBuffScanner): data model,
config load/save, region selector, matcher, monitor loop and overlay
(renderer) loop, with theorems settling the specification claims.

Machine images are modelled as integer pixel matrices; the similarity
scores computed by the external OpenCV call are modelled over `ℚ`.
-/

/-- Pixel matrix with its dimensions, as produced by `cv2.imread` /
`dxcam.grab` (`img.shape[:2] = (h, w)`); pixel values are integers. -/
structure Img where
  h : Nat
  w : Nat
  px : List (List Int)
deriving DecidableEq, Repr

/-- Screen rectangle `[left, top, right, bottom]` as stored in
`cfg["search_region"]`. -/
structure Region where
  left : Int
  top : Int
  right : Int
  bottom : Int
deriving DecidableEq, Repr

/-- The `cfg["hotkeys"]` mapping `{"toggle": .., "select_region": .., "quit": ..}`. -/
structure Hotkeys where
  toggle : String
  select_region : String
  quit : String
deriving DecidableEq, Repr

/-- One entry of `cfg["buffs"]`: the declaration fields from `config.json`
plus the runtime keys the program adds to the same dict
(`template`, `t_h`, `t_w`, `active`, `icon_data`, `last_seen`).
A key absent from the dict is modelled by the listed default, matching
how the code reads them (`b.get("active")` is falsy when absent, and
`b.get("template")` is `None`). -/
structure Buff where
  name : String
  file : String
  refreshable : Bool := true
  duration : Option ℚ := none
  template : Option Img := none
  t_h : Nat := 0
  t_w : Nat := 0
  active : Bool := false
  icon_data : Option Img := none
  last_seen : ℚ := 0
deriving DecidableEq, Repr

/-- The configuration dict. -/
structure Config where
  search_region : Region
  overlay_pos : Int × Int
  threshold : ℚ
  hotkeys : Hotkeys
  buffs : List Buff
deriving DecidableEq, Repr

/-- `DEFAULT_CONFIG` from `main.py` (threshold `0.82` as an exact rational). -/
def DEFAULT_CONFIG : Config :=
  { search_region := ⟨300, 1000, 1100, 1050⟩
    overlay_pos := (100, 100)
    threshold := 82 / 100
    hotkeys := ⟨"F8", "shift+f9", "F10"⟩
    buffs := [] }

/-! ## Config persistence (`load_config` / `save_config`)

The settings file on disk either holds decodable JSON for a config,
holds undecodable bytes, or is absent.  `json.load` on undecodable
contents raises `json.JSONDecodeError`. -/

/-- Contents of `config.json` when the file exists. -/
inductive ConfigFile where
  | valid (c : Config)
  | corrupt
deriving DecidableEq

/-- Exceptions that `load_config` can raise. -/
inductive LoadError where
  | jsonDecodeError
deriving DecidableEq, Repr

/-- The file-system state `load_config`/`save_config` interact with:
the optional `config.json` and the sorted list of `*.png` stems found
in the templates directory. -/
structure Disk where
  configFile : Option ConfigFile
  templateStems : List String
deriving DecidableEq

/-- `save_config(cfg)`: serialize `cfg` to `config.json`. -/
def save_config (cfg : Config) (d : Disk) : Disk :=
  { d with configFile := some (.valid cfg) }

/-- Buff declaration auto-added by `load_config` for a template stem:
`{"name": p.stem, "file": str(p.relative_to(APP_DIR)), "refreshable": True, "duration": None}`. -/
def autoBuff (stem : String) : Buff :=
  { name := stem, file := "templates/" ++ stem ++ ".png" }

/-- `load_config()`: if `config.json` exists, `json.load` it (which raises
on undecodable contents); otherwise copy `DEFAULT_CONFIG`, auto-fill
`buffs` from the templates directory, write the result back with
`save_config`, and return it. -/
def load_config (d : Disk) : Except LoadError (Config × Disk) :=
  match d.configFile with
  | some (.valid c) => .ok (c, d)
  | some .corrupt => .error .jsonDecodeError
  | none =>
      let c : Config := { DEFAULT_CONFIG with buffs := d.templateStems.map autoBuff }
      .ok (c, save_config c d)

/-! ## Region selector (`pick_region_via_drag`) -/

/-- Python's `sorted([a, b])` on a two-element list, returned as
`(smaller, larger)`. -/
def sorted2 (a b : Int) : Int × Int :=
  if a ≤ b then (a, b) else (b, a)

/-- The `on_button_release` handler of `pick_region_via_drag`: from the
press point `start` and release point `event`, `left, right =
sorted([x0, x1])`, `top, bottom = sorted([y0, y1])`, and the result
rectangle is `[left, top, right, bottom]`. -/
def on_button_release (start event : Int × Int) : Region :=
  let lr := sorted2 start.1 event.1
  let tb := sorted2 start.2 event.2
  ⟨lr.1, tb.1, lr.2, tb.2⟩

/-- `pick_region_via_drag()`: the gesture either completes with a press
and a release point, or is cancelled with ESC (`on_esc` destroys the
window leaving `result["rect"]` at `None`). -/
def pick_region_via_drag (gesture : Option ((Int × Int) × (Int × Int))) : Option Region :=
  gesture.map fun g => on_button_release g.1 g.2

/-! ## Matcher (`cv2.matchTemplate` + `cv2.minMaxLoc` + the per-buff body
of `monitor_loop`) -/

/-- Exception raised by the external OpenCV call. -/
inductive CvError where
  | assertionFailed
deriving DecidableEq, Repr

instance {ε α : Type} [DecidableEq ε] [DecidableEq α] : DecidableEq (Except ε α) := fun a b =>
  match a, b with
  | .ok x, .ok y =>
      if h : x = y then .isTrue (by rw [h]) else .isFalse (fun c => h (Except.ok.inj c))
  | .error x, .error y =>
      if h : x = y then .isTrue (by rw [h]) else .isFalse (fun c => h (Except.error.inj c))
  | .ok _, .error _ => .isFalse (fun c => Except.noConfusion c)
  | .error _, .ok _ => .isFalse (fun c => Except.noConfusion c)

/-- Pixel of a matrix at row `y`, column `x` (0 outside the matrix). -/
def pxAt (m : List (List Int)) (y x : Nat) : Int :=
  (m.getD y []).getD x 0

/-- Sum of the `th × tw` patch of `img` whose top-left corner is `(y, x)`. -/
def patchSum (img : Img) (y x th tw : Nat) : Int :=
  ((List.range th).map fun dy =>
    ((List.range tw).map fun dx => pxAt img.px (y + dy) (x + dx)).sum).sum

/-- Mean-centred correlation score of `tmpl` against the patch of `img`
at `(y, x)`, scaled by `n²` (`n` the number of template pixels) so it
stays an exact integer.  Modelled external capability: OpenCV
`TM_CCOEFF_NORMED` further divides by a square-root normaliser in
floating point; the development models the score by this exact integer
surrogate, which preserves everything the claims depend on (the map's
dimensions, its determinism in the inputs, and that a score is a pure
function of frame and template). -/
def ccoeffAt (img tmpl : Img) (y x : Nat) : Int :=
  let n : Int := (tmpl.h * tmpl.w : Nat)
  let sT : Int := patchSum tmpl 0 0 tmpl.h tmpl.w
  let sP : Int := patchSum img y x tmpl.h tmpl.w
  ((List.range tmpl.h).map fun dy =>
    ((List.range tmpl.w).map fun dx =>
      (n * pxAt tmpl.px dy dx - sT) *
      (n * pxAt img.px (y + dy) (x + dx) - sP)).sum).sum

/-- Score map of size `(h - t_h + 1) × (w - t_w + 1)`, one score per
candidate top-left position. -/
def scoreMap (img tmpl : Img) : List (List Int) :=
  (List.range (img.h - tmpl.h + 1)).map fun y =>
    (List.range (img.w - tmpl.w + 1)).map fun x => ccoeffAt img tmpl y x

/-- Modelled external capability `cv2.matchTemplate(img, tmpl, method)`:
when the template fits inside the image the score map is computed; when
the image fits inside the template OpenCV swaps the two arguments; in
the remaining (mixed-dimension) case OpenCV raises an assertion error. -/
def matchTemplate (img tmpl : Img) : Except CvError (List (List Int)) :=
  if tmpl.h ≤ img.h ∧ tmpl.w ≤ img.w then .ok (scoreMap img tmpl)
  else if img.h ≤ tmpl.h ∧ img.w ≤ tmpl.w then .ok (scoreMap tmpl img)
  else .error .assertionFailed

/-- Modelled external capability `cv2.minMaxLoc`, restricted to the two
components the code uses: the maximal value and its location `(x, y)`,
scanning row-major and keeping the first occurrence of the maximum. -/
def minMaxLocMax (res : List (List Int)) : Int × Nat × Nat :=
  let cells := res.enum.flatMap fun yr => yr.2.enum.map fun xv => (xv.2, xv.1, yr.1)
  match cells with
  | [] => (0, 0, 0)
  | c :: cs => cs.foldl (fun best d => if best.1 < d.1 then d else best) c

/-- NumPy slice `frame[y:y + t_h, x:x + t_w]` (clamping at the borders,
as Python slicing does). -/
def cropImg (img : Img) (y x th tw : Nat) : Img :=
  let rows := (img.px.drop y).take th
  { h := rows.length, w := min tw (img.w - x), px := rows.map fun r => (r.drop x).take tw }

/-- The per-buff body of the `monitor_loop` cycle (lines 291-308 of
`main.py`): skip to an inactive record when the template failed to
load; otherwise run `cv2.matchTemplate` (whose exception propagates),
take the maximum score and its location, and either activate the record
with the cropped frame and the cycle timestamp, or deactivate it. -/
def matchStep (frame : Img) (threshold : ℚ) (now : ℚ) (b : Buff) : Except CvError Buff :=
  match b.template with
  | none => .ok { b with active := false, icon_data := none }
  | some tmpl =>
    match matchTemplate frame tmpl with
    | .error e => .error e
    | .ok res =>
      let m := minMaxLocMax res
      if (m.1 : ℚ) ≥ threshold then
        .ok { b with icon_data := some (cropImg frame m.2.2 m.2.1 b.t_h b.t_w),
                     active := true, last_seen := now }
      else
        .ok { b with active := false, icon_data := none }

/-! ## Controller (`BuffMonitorApp.toggle_running`, `on_select_region`) -/

/-- The clear applied to one buff dict by the pause branch of
`toggle_running`: `b["active"] = False; b["icon_data"] = None`. -/
def clearRecord (b : Buff) : Buff :=
  { b with active := false, icon_data := none }

/-- The mutable application state the hotkey handlers touch:
`self.cfg` and `self.running`. -/
structure AppState where
  cfg : Config
  running : Bool
deriving DecidableEq

/-- `toggle_running()`: when idle, mark running (the monitor thread is
started); when running, mark idle and clear the active state of every
buff record. -/
def toggle_running (s : AppState) : AppState :=
  if s.running = false then
    { s with running := true }
  else
    { s with running := false,
             cfg := { s.cfg with buffs := s.cfg.buffs.map clearRecord } }

/-- `on_select_region()`: run the region picker; when it returns a
rectangle, store it in `cfg["search_region"]` and `save_config`; when it
was cancelled, print only.  The state is the app state plus the disk. -/
def on_select_region (s : AppState) (d : Disk)
    (gesture : Option ((Int × Int) × (Int × Int))) : AppState × Disk :=
  match pick_region_via_drag gesture with
  | some rect =>
      let cfg := { s.cfg with search_region := rect }
      ({ s with cfg := cfg }, save_config cfg d)
  | none => (s, d)

/-! ## Monitor loop region snapshot (`monitor_loop`, lines 276-285)

`monitor_loop` reads `self.cfg["search_region"]` once into the local
variable `region` when the thread starts, and every
`self.camera.grab(region=(left, top, right, bottom))` call of the run
uses those locals.  The run is modelled as a state holding the shared
`cfg` and that local, driven by the events that can happen during one
`Running` period: a region selection hotkey, or one loop cycle. -/

/-- State of one `Running` period: the shared config and the monitor
thread's local `region` variable. -/
structure RunState where
  cfg : Config
  snapshot : Region
deriving DecidableEq

/-- Entering `Running`: the local `region = self.cfg.get("search_region", ...)`. -/
def startRun (cfg : Config) : RunState :=
  { cfg := cfg, snapshot := cfg.search_region }

/-- Events interleaved with the monitor thread during one run. -/
inductive RunEvent where
  | selectRegion (gesture : Option ((Int × Int) × (Int × Int)))
  | cycle
deriving DecidableEq

/-- One event step; the second component is the region passed to
`self.camera.grab` when the event was a monitor cycle. -/
def runStep (s : RunState) : RunEvent → RunState × Option Region
  | .selectRegion g =>
      match pick_region_via_drag g with
      | some rect => ({ s with cfg := { s.cfg with search_region := rect } }, none)
      | none => (s, none)
  | .cycle => (s, some s.snapshot)

/-- The regions requested from the frame source over a sequence of events. -/
def captures (s : RunState) : List RunEvent → List Region
  | [] => []
  | e :: es =>
      let r := runStep s e
      match r.2 with
      | some reg => reg :: captures r.1 es
      | none => captures r.1 es

/-! ## Overlay (renderer) loop placement pass (`overlay_loop`, lines 206-223)

`for i, b in enumerate(self.cfg.get("buffs", []))`: buffs that are not
active or have no `icon_data` are skipped with `continue`, every other
buff's label is placed at `x = x0 + i * spacing, y = y0` with
`spacing = 70`, where `i` is the index in the full buff list. -/

/-- The placement pass of one `overlay_loop` iteration, carrying the
running `enumerate` index: the visual elements `(name, x, y)` produced
for the buff list. -/
def overlayPass (x0 y0 : Int) : Nat → List Buff → List (String × Int × Int)
  | _, [] => []
  | i, b :: rest =>
      if b.active = true ∧ b.icon_data.isSome then
        (b.name, x0 + (i : Int) * 70, y0) :: overlayPass x0 y0 (i + 1) rest
      else
        overlayPass x0 y0 (i + 1) rest

/-- One full reconciliation pass over `cfg`: placements for all buffs,
indices starting at 0. -/
def overlay_loop_pass (cfg : Config) : List (String × Int × Int) :=
  overlayPass cfg.overlay_pos.1 cfg.overlay_pos.2 0 cfg.buffs

/-! ## Concrete sample inputs used in witnesses -/

/-- A concrete 2×2 frame. -/
def frame22 : Img := ⟨2, 2, [[1, 2], [3, 4]]⟩

/-- A concrete 1×1 template. -/
def tmpl11 : Img := ⟨1, 1, [[9]]⟩

/-- A concrete 1×3 template that is wider but shorter than `frame22`. -/
def tmplWide : Img := ⟨1, 3, [[1, 2, 3]]⟩

/-- A buff whose loaded template is `tmplWide`. -/
def buffWide : Buff :=
  { name := "Wide", file := "templates/Wide.png", template := some tmplWide, t_h := 1, t_w := 3 }

/-- A buff whose loaded template is `tmpl11`, idle. -/
def buffA : Buff :=
  { name := "Shield", file := "templates/Shield.png", template := some tmpl11, t_h := 1, t_w := 1 }

/-- The same buff in a different runtime state (active, with a crop and
a last-seen time). -/
def buffB : Buff := { buffA with active := true, icon_data := some tmpl11, last_seen := 7 }

/-- A declared buff with no runtime activity. -/
def idleBuff : Buff := { name := "Haste", file := "templates/Haste.png" }

/-- A config declaring an idle buff before an active one. -/
def overlayCfg : Config := { DEFAULT_CONFIG with buffs := [idleBuff, buffB] }

/-! # Theorems -/

/-- The release handler computes the componentwise min/max rectangle. -/
theorem on_button_release_eq (p q : Int × Int) :
    on_button_release p q = ⟨min p.1 q.1, min p.2 q.2, max p.1 q.1, max p.2 q.2⟩ := by
  simp only [on_button_release, sorted2]
  split <;> split <;> simp only [Region.mk.injEq] <;> omega

/-- C5: for every pair of drag endpoints the Region Selector produces the
componentwise min/max normalization, swapping the endpoints yields the
same Region, and the two concrete drags `(500,500)→(100,100)` and
`(100,100)→(500,500)` both yield `[100, 100, 500, 500]`. -/
theorem drag_region_normalization :
    (∀ p q : Int × Int,
      on_button_release p q = ⟨min p.1 q.1, min p.2 q.2, max p.1 q.1, max p.2 q.2⟩ ∧
      on_button_release p q = on_button_release q p) ∧
    on_button_release (500, 500) (100, 100) = ⟨100, 100, 500, 500⟩ ∧
    on_button_release (100, 100) (500, 500) = ⟨100, 100, 500, 500⟩ := by
  refine ⟨fun p q => ⟨on_button_release_eq p q, ?_⟩, by decide, by decide⟩
  rw [on_button_release_eq p q, on_button_release_eq q p]
  simp only [Region.mk.injEq]
  omega

/-- C6 counterexample: a drag whose endpoints share an x coordinate
produces a Region with `right = left`, so the strict invariant
`right > left` fails on the construction-from-two-points path. -/
theorem drag_region_degenerate_cex :
    ¬ ((on_button_release (5, 2) (5, 9)).left < (on_button_release (5, 2) (5, 9)).right) := by
  decide

/-- C6 amended: every Region produced by the Region Selector satisfies
the non-strict invariant `right ≥ left` and `bottom ≥ top`, for every
pair of input points. -/
theorem drag_region_invariant_amended (p q : Int × Int) :
    (on_button_release p q).left ≤ (on_button_release p q).right ∧
    (on_button_release p q).top ≤ (on_button_release p q).bottom := by
  rw [on_button_release_eq p q]
  exact ⟨le_trans (min_le_left _ _) (le_max_left _ _),
         le_trans (min_le_left _ _) (le_max_left _ _)⟩

/-- C7: a cancelled region selection leaves the app state (every config
field) and the disk untouched; a successful selection writes exactly the
normalized rectangle into `search_region` and persists the updated
config with `save_config`. -/
theorem select_region_cancel_frame :
    (∀ (s : AppState) (d : Disk), on_select_region s d none = (s, d)) ∧
    (∀ (s : AppState) (d : Disk) (p q : Int × Int),
      on_select_region s d (some (p, q)) =
        ({ s with cfg := { s.cfg with search_region := on_button_release p q } },
         save_config { s.cfg with search_region := on_button_release p q } d)) :=
  ⟨fun _ _ => rfl, fun _ _ _ _ => rfl⟩

/-- C3 counterexample: on a settings file whose contents are corrupt
(undecodable JSON), `load_config` raises the decode error rather than
recovering with the default configuration. -/
theorem load_config_corrupt_raises :
    load_config ⟨some .corrupt, []⟩ = .error .jsonDecodeError := rfl

/-- C3 amended: only a missing settings file recovers — `load_config`
then returns the default configuration (buffs auto-filled from the
templates directory) and writes it back to the settings file; corrupt
contents instead raise a JSON decode error. -/
theorem load_config_recovery_amended :
    (∀ ts : List String,
      load_config ⟨none, ts⟩ =
        .ok ({ DEFAULT_CONFIG with buffs := ts.map autoBuff },
             save_config { DEFAULT_CONFIG with buffs := ts.map autoBuff } ⟨none, ts⟩)) ∧
    (∀ d : Disk, d.configFile = some .corrupt →
      load_config d = .error .jsonDecodeError) := by
  refine ⟨fun ts => rfl, fun d h => ?_⟩
  simp [load_config, h]

/-- Witness for the amended C3 theorem at a concrete disk state. -/
theorem load_config_recovery_amended_witness :
    (⟨some .corrupt, ["Shield"]⟩ : Disk).configFile = some .corrupt ∧
    load_config ⟨some .corrupt, ["Shield"]⟩ = .error .jsonDecodeError :=
  ⟨rfl, load_config_recovery_amended.2 ⟨some .corrupt, ["Shield"]⟩ rfl⟩

/-- C4: toggling off from `Running` leaves every DetectionRecord
inactive with no retained crop, and the clear is idempotent — on a
record that is already clear it is the identity, and re-clearing a
cleared buff list changes nothing. -/
theorem toggle_pause_clears_records (s : AppState) (h : s.running = true) :
    (∀ b ∈ (toggle_running s).cfg.buffs, b.active = false ∧ b.icon_data = none) ∧
    (∀ b : Buff, b.active = false → b.icon_data = none → clearRecord b = b) ∧
    (toggle_running s).cfg.buffs.map clearRecord = (toggle_running s).cfg.buffs := by
  refine ⟨?_, ?_, ?_⟩
  · intro b hb
    simp only [toggle_running, h] at hb
    simp only [Bool.true_eq_false, if_false, List.mem_map] at hb
    obtain ⟨a, _, rfl⟩ := hb
    exact ⟨rfl, rfl⟩
  · intro b h1 h2
    cases b
    simp only [clearRecord] at *
    simp_all
  · simp only [toggle_running, h, Bool.true_eq_false, if_false, List.map_map]
    apply List.map_congr_left
    intro b _
    simp [clearRecord]

/-- Witness for C4: a concrete running state with one active record. -/
theorem toggle_pause_clears_records_witness :
    (AppState.mk { DEFAULT_CONFIG with buffs := [{ name := "Shield", file := "templates/Shield.png", active := true, icon_data := some ⟨1, 1, [[3]]⟩, last_seen := 5 }] } true).running = true ∧
    (∀ b ∈ (toggle_running (AppState.mk { DEFAULT_CONFIG with buffs := [{ name := "Shield", file := "templates/Shield.png", active := true, icon_data := some ⟨1, 1, [[3]]⟩, last_seen := 5 }] } true)).cfg.buffs,
      b.active = false ∧ b.icon_data = none) :=
  ⟨rfl, (toggle_pause_clears_records _ rfl).1⟩

/-- C1 evaluated at the failing input: the code has no geometric guard —
with a template wider (but not taller) than the frame, the per-buff
match raises the OpenCV assertion error (which propagates out of
`monitor_loop` and kills the monitor thread) instead of producing an
inactive outcome with no scoring attempted. -/
theorem matchStep_oversized_template_raises :
    matchStep frame22 1 0 buffWide = .error .assertionFailed := rfl

/-- No run event changes the snapshot, so every capture reports it. -/
theorem captures_eq_snapshot (es : List RunEvent) (s : RunState) (r : Region)
    (hr : r ∈ captures s es) : r = s.snapshot := by
  induction es generalizing s with
  | nil => simp [captures] at hr
  | cons e es ih =>
      cases e with
      | cycle =>
          have hc : captures s (RunEvent.cycle :: es) = s.snapshot :: captures s es := rfl
          rw [hc] at hr
          rcases List.mem_cons.mp hr with h | h
          · exact h
          · exact ih s h
      | selectRegion g =>
          cases hg : pick_region_via_drag g with
          | none =>
              have hc : captures s (RunEvent.selectRegion g :: es) = captures s es := by
                simp [captures, runStep, hg]
              rw [hc] at hr
              exact ih s hr
          | some rect =>
              have hc : captures s (RunEvent.selectRegion g :: es) =
                  captures { s with cfg := { s.cfg with search_region := rect } } es := by
                simp [captures, runStep, hg]
              rw [hc] at hr
              exact ih { s with cfg := { s.cfg with search_region := rect } } hr

/-- C2: during one `Running` period, every capture request uses the
region read from the config at the `Idle→Running` transition; a region
change performed by the Region Selector during the run never changes the
region used by any remaining cycle. -/
theorem monitor_region_pinned (cfg : Config) (es : List RunEvent) (r : Region)
    (hr : r ∈ captures (startRun cfg) es) : r = cfg.search_region :=
  captures_eq_snapshot es (startRun cfg) r hr

/-- Witness for C2: a run whose second cycle still captures the entry
region although a region selection succeeded in between. -/
theorem monitor_region_pinned_witness :
    (⟨300, 1000, 1100, 1050⟩ : Region) ∈
      captures (startRun DEFAULT_CONFIG)
        [RunEvent.cycle, RunEvent.selectRegion (some ((0, 0), (9, 9))), RunEvent.cycle] ∧
    (⟨300, 1000, 1100, 1050⟩ : Region) = DEFAULT_CONFIG.search_region :=
  ⟨by decide,
   monitor_region_pinned DEFAULT_CONFIG
     [RunEvent.cycle, RunEvent.selectRegion (some ((0, 0), (9, 9))), RunEvent.cycle]
     ⟨300, 1000, 1100, 1050⟩ (by decide)⟩

/-- Membership in a placement pass started at index `j`: the buff at
offset `i` of the remaining list lands at `x0 + (j + i) * 70`. -/
theorem overlayPass_mem (x0 y0 : Int) (bs : List Buff) (j i : Nat) (h : i < bs.length)
    (ha : (bs.get ⟨i, h⟩).active = true) (hi : (bs.get ⟨i, h⟩).icon_data.isSome = true) :
    ((bs.get ⟨i, h⟩).name, x0 + ((j + i : Nat) : Int) * 70, y0) ∈ overlayPass x0 y0 j bs := by
  induction bs generalizing j i with
  | nil => simp at h
  | cons b rest ih =>
      cases i with
      | zero =>
          have hb : b.active = true := ha
          have hbi : b.icon_data.isSome = true := hi
          simp only [overlayPass, hb, hbi, and_self, if_true, Nat.add_zero]
          exact List.mem_cons_self _ _
      | succ i' =>
          have h' : i' < rest.length := Nat.lt_of_succ_lt_succ h
          have hmem := ih (j + 1) i' h' ha hi
          have hidx : ((j + (i' + 1) : Nat) : Int) = (((j + 1) + i' : Nat) : Int) := by
            push_cast
            ring
          rw [hidx]
          by_cases hb : b.active = true ∧ b.icon_data.isSome
          · simp only [overlayPass, if_pos hb]
            exact List.mem_cons_of_mem _ hmem
          · simp only [overlayPass, if_neg hb]
            exact hmem

/-- C8: in a reconciliation pass, the visual element of an active
template is placed at `overlay_pos.x + i * spacing, overlay_pos.y`
where `i` is the template's index in the fixed declaration order of the
full buff list (inactive and disabled entries included). -/
theorem overlay_index_is_declaration_order (cfg : Config) (i : Nat)
    (h : i < cfg.buffs.length)
    (ha : (cfg.buffs.get ⟨i, h⟩).active = true)
    (hi : (cfg.buffs.get ⟨i, h⟩).icon_data.isSome = true) :
    ((cfg.buffs.get ⟨i, h⟩).name,
      cfg.overlay_pos.1 + (i : Int) * 70, cfg.overlay_pos.2) ∈ overlay_loop_pass cfg := by
  have hm := overlayPass_mem cfg.overlay_pos.1 cfg.overlay_pos.2 cfg.buffs 0 i h ha hi
  simpa [overlay_loop_pass] using hm

/-- Witness for C8: with an idle buff declared first, the active buff at
declaration index 1 is placed one spacing step to the right, not at the
first slot among active buffs. -/
theorem overlay_index_witness :
    (overlayCfg.buffs.get ⟨1, by decide⟩).active = true ∧
    ((overlayCfg.buffs.get ⟨1, by decide⟩).name,
      overlayCfg.overlay_pos.1 + (1 : Int) * 70, overlayCfg.overlay_pos.2)
      ∈ overlay_loop_pass overlayCfg :=
  ⟨rfl, overlay_index_is_declaration_order overlayCfg 1 (by decide) rfl rfl⟩

/-- C9: the match outcome (active flag and crop) is a deterministic
function of `(frame, template, threshold)` alone — it does not depend on
the cycle timestamp or on the record's previous runtime state. -/
theorem match_outcome_deterministic (frame : Img) (threshold : ℚ)
    (now₁ now₂ : ℚ) (b₁ b₂ : Buff)
    (ht : b₁.template = b₂.template) (hh : b₁.t_h = b₂.t_h) (hw : b₁.t_w = b₂.t_w) :
    Except.map (fun b => (b.active, b.icon_data)) (matchStep frame threshold now₁ b₁) =
    Except.map (fun b => (b.active, b.icon_data)) (matchStep frame threshold now₂ b₂) := by
  cases hb₂ : b₂.template with
  | none =>
      have hb₁ : b₁.template = none := by rw [ht, hb₂]
      simp [matchStep, hb₁, hb₂, Except.map]
  | some tmpl =>
      have hb₁ : b₁.template = some tmpl := by rw [ht, hb₂]
      simp only [matchStep, hb₁, hb₂]
      cases hmt : matchTemplate frame tmpl with
      | error e => simp [hmt, Except.map]
      | ok res =>
          simp only [hmt]
          by_cases hm : ((minMaxLocMax res).1 : ℚ) ≥ threshold
          · simp [hm, hh, hw, Except.map]
          · simp [hm, Except.map]

/-- Witness for C9: the same frame, template and threshold with two
different timestamps and two different prior record states. -/
theorem match_outcome_deterministic_witness :
    buffA.template = buffB.template ∧
    Except.map (fun b => (b.active, b.icon_data)) (matchStep frame22 1 3 buffA) =
    Except.map (fun b => (b.active, b.icon_data)) (matchStep frame22 1 8 buffB) :=
  ⟨rfl, match_outcome_deterministic frame22 1 3 8 buffA buffB rfl rfl rfl⟩

/-- C10: deactivating a template never erases `last_seen` — the
below-threshold cycle outcome changes only the active flag and the
crop, and the `Running→Idle` clear keeps every record's `last_seen`. -/
theorem deactivation_preserves_last_seen :
    (∀ (frame : Img) (threshold now : ℚ) (b b' : Buff),
      matchStep frame threshold now b = .ok b' → b'.active = false →
      b'.last_seen = b.last_seen ∧ b' = { b with active := false, icon_data := none }) ∧
    (∀ s : AppState, s.running = true →
      (toggle_running s).cfg.buffs.map Buff.last_seen = s.cfg.buffs.map Buff.last_seen) := by
  constructor
  · intro frame threshold now b b' hok hact
    cases hb : b.template with
    | none =>
        simp only [matchStep, hb] at hok
        have hb' := Except.ok.inj hok
        subst hb'
        exact ⟨rfl, rfl⟩
    | some tmpl =>
        simp only [matchStep, hb] at hok
        cases hmt : matchTemplate frame tmpl with
        | error e => simp [hmt] at hok
        | ok res =>
            simp only [hmt] at hok
            by_cases hm : ((minMaxLocMax res).1 : ℚ) ≥ threshold
            · rw [if_pos hm] at hok
              have hb' := Except.ok.inj hok
              subst hb'
              simp at hact
            · rw [if_neg hm] at hok
              have hb' := Except.ok.inj hok
              subst hb'
              exact ⟨rfl, rfl⟩
  · intro s h
    simp only [toggle_running, h, Bool.true_eq_false, if_false, List.map_map]
    apply List.map_congr_left
    intro b _
    rfl

/-- Witness for C10: a below-threshold cycle on an active record leaves
its `last_seen` value intact. -/
theorem deactivation_preserves_last_seen_witness :
    matchStep frame22 1 5 buffB = .ok { buffB with active := false, icon_data := none } ∧
    ({ buffB with active := false, icon_data := none } : Buff).last_seen = buffB.last_seen :=
  ⟨by decide, (deactivation_preserves_last_seen.1 frame22 1 5 buffB
      { buffB with active := false, icon_data := none } (by decide) rfl).1⟩
